import Mathlib

/-!
# Verification of the llama-cpp GUI core logic

Shallow embedding of the testable core of `llama-server_gui_new.py`:
the configuration model, the command builder (`generate_command`), the
command preview string (`show_command`), the custom-argument list
operations, JSON configuration persistence (`save_config` / `load_config`),
and the process-supervisor start guard (`start_server`).

Python strings are modelled as Lean `String` (lists of unicode scalar
values), Python ints as `Int`, Python bools as `Bool`.  JSON documents are
modelled structurally (`JVal`), since `save_config` / `load_config`
communicate through `json.dump` / `json.load` of a flat dict.
-/

namespace LlamaGui

/-! ## Python string primitives

`str.strip()` and `str.split()` (no separator) use Python's notion of
whitespace: the characters for which `str.isspace()` is true.  That set is
U+0009–U+000D, U+001C–U+001F, U+0020, U+0085, U+00A0, U+1680,
U+2000–U+200A, U+2028, U+2029, U+202F, U+205F and U+3000. -/

def isPySpace (c : Char) : Bool :=
  let n := c.toNat
  (0x09 ≤ n && n ≤ 0x0d) || n == 0x20 || (0x1c ≤ n && n ≤ 0x1f) ||
  n == 0x85 || n == 0xa0 || n == 0x1680 || (0x2000 ≤ n && n ≤ 0x200a) ||
  n == 0x2028 || n == 0x2029 || n == 0x202f || n == 0x205f || n == 0x3000

/-- Python `str.strip()` on the character list: drop leading and trailing
whitespace. -/
def pyStripList (l : List Char) : List Char :=
  ((l.dropWhile isPySpace).reverse.dropWhile isPySpace).reverse

/-- Python `str.strip()`. -/
def pyStrip (s : String) : String :=
  String.mk (pyStripList s.data)

/-- Helper for Python `str.split()` with no separator: accumulate the
current (reversed) token while scanning. -/
def pySplitAux : List Char → List Char → List String
  | [], acc => if acc.isEmpty then [] else [String.mk acc.reverse]
  | c :: rest, acc =>
      if isPySpace c then
        if acc.isEmpty then pySplitAux rest []
        else String.mk acc.reverse :: pySplitAux rest []
      else pySplitAux rest (c :: acc)

/-- Python `str.split()` with no separator: split on runs of whitespace,
producing no empty tokens. -/
def pySplit (s : String) : List String :=
  pySplitAux s.data []

/-! ## JSON document model

`save_config` writes a flat JSON object; `load_config` reads it back with
`config.get(key, default)`.  A document is an association list from keys
to structural JSON values. -/

inductive JVal where
  | jstr  : String → JVal
  | jbool : Bool → JVal
  | jint  : Int → JVal
  | jarr  : List JVal → JVal
  | jobj  : List (String × JVal) → JVal

abbrev ConfigDoc := List (String × JVal)

/-- `dict.get(key)` on a JSON object: first binding of the key, if any. -/
def jget (doc : ConfigDoc) (key : String) : Option JVal :=
  (doc.find? (fun kv => kv.1 == key)).map (fun kv => kv.2)

/-- Coercion applied when a loaded JSON value is stored into a Tk
`StringVar` and read back with `.get()`.  A Python `bool` becomes the Tcl
boolean rendering "1"/"0" (this is how `load_config`'s slip
`config.get('flash_attn', False)` turns into the string "0"); an int is
rendered in decimal.  Values of other shapes raise inside Tcl and are
outside the scope of the claims (totalised to ""). -/
def tkStrOf : JVal → String
  | .jstr s => s
  | .jbool b => if b then "1" else "0"
  | .jint n => toString n
  | _ => ""

/-- Coercion applied when a loaded JSON value is stored into a Tk
`BooleanVar`.  Well-typed documents (the only ones the claims exercise)
store `jbool`; ints follow Tcl's nonzero convention; other shapes raise
in Tcl and are totalised to `false`. -/
def tkBoolOf : JVal → Bool
  | .jbool b => b
  | .jint n => n != 0
  | _ => false

/-- Coercion applied when a loaded JSON value is stored into a Tk
`IntVar`.  Well-typed documents store `jint`; other shapes raise in Tcl
and are totalised to `0`. -/
def tkIntOf : JVal → Int
  | .jint n => n
  | .jbool b => if b then 1 else 0
  | _ => 0

/-! ## Data model -/

/-- One entry of the custom-argument list: `{"value": ..., "enabled": ...}`
(`add_custom_argument` always creates both keys). -/
structure CustomArg where
  value : String
  enabled : Bool
  deriving DecidableEq, Repr

/-- The in-memory configuration: the contents of every Tk variable of the
GUI plus the custom-argument list.  Field names follow the Python
attribute names. -/
structure Config where
  model_path : String
  alias_name : String
  lora_path : String
  mmproj_path : String
  chat_template : String
  reasoning_format : String
  reasoning_effort : String
  jinja : Bool
  n_predict : String
  ignore_eos : Bool
  temp : String
  top_k : String
  top_p : String
  repeat_penalty : String
  ctx_size : Int
  gpu_layers : Int
  threads : String
  batch_size : String
  ubatch_size : String
  parallel : String
  cont_batching : Bool
  flash_attn : String
  moe_cpu_layers : String
  mlock : Bool
  no_mmap : Bool
  numa : Bool
  draft_model_path : String
  draft_gpu_layers : String
  draft_tokens : String
  host : String
  port : String
  api_key : String
  no_webui : Bool
  embedding : Bool
  verbose : Bool
  custom_arguments : List CustomArg
  deriving DecidableEq, Repr

/-- The initial widget state created in `setup_ui` (the `tk.StringVar` /
`tk.IntVar` / `tk.BooleanVar` constructor defaults). -/
def initial_config : Config where
  model_path := ""
  alias_name := ""
  lora_path := ""
  mmproj_path := ""
  chat_template := ""
  reasoning_format := ""
  reasoning_effort := ""
  jinja := false
  n_predict := ""
  ignore_eos := false
  temp := ""
  top_k := ""
  top_p := ""
  repeat_penalty := ""
  ctx_size := 4096
  gpu_layers := 99
  threads := ""
  batch_size := ""
  ubatch_size := ""
  parallel := ""
  cont_batching := false
  flash_attn := "auto"
  moe_cpu_layers := ""
  mlock := false
  no_mmap := false
  numa := false
  draft_model_path := ""
  draft_gpu_layers := ""
  draft_tokens := ""
  host := "127.0.0.1"
  port := "8080"
  api_key := ""
  no_webui := false
  embedding := false
  verbose := false
  custom_arguments := []

/-! ## Command builder (`generate_command`) -/

/-- The `args` dict of `generate_command`: optional value flags, in the
source's (insertion-order preserving) dict order. -/
def optValueArgs : List (String × (Config → String)) :=
  [("--host", fun c => c.host), ("--port", fun c => c.port),
   ("-a", fun c => c.alias_name), ("--api-key", fun c => c.api_key),
   ("-t", fun c => c.threads), ("-b", fun c => c.batch_size),
   ("-np", fun c => c.parallel), ("--lora", fun c => c.lora_path),
   ("--mmproj", fun c => c.mmproj_path),
   ("--chat-template", fun c => c.chat_template),
   ("-md", fun c => c.draft_model_path),
   ("-ngld", fun c => c.draft_gpu_layers),
   ("--draft", fun c => c.draft_tokens),
   ("--n-cpu-moe", fun c => c.moe_cpu_layers),
   ("--reasoning-format", fun c => c.reasoning_format),
   ("-ub", fun c => c.ubatch_size), ("-n", fun c => c.n_predict),
   ("--temp", fun c => c.temp), ("--top-k", fun c => c.top_k),
   ("--top-p", fun c => c.top_p),
   ("--repeat-penalty", fun c => c.repeat_penalty)]

/-- The `bool_args` dict of `generate_command`: bare flags appended when
the boolean setting is true, in the source's dict order. -/
def boolFlagArgs : List (String × (Config → Bool)) :=
  [("--no-mmap", fun c => c.no_mmap), ("--no-webui", fun c => c.no_webui),
   ("-cb", fun c => c.cont_batching), ("--mlock", fun c => c.mlock),
   ("--embedding", fun c => c.embedding), ("--jinja", fun c => c.jinja),
   ("-v", fun c => c.verbose), ("--ignore-eos", fun c => c.ignore_eos)]

/-- `json.dumps` escaping of one character of a string, with the default
`ensure_ascii=True`: `\` and `"` and the C0 shorthands get two-character
escapes, printable ASCII is emitted literally, everything else becomes
`\uXXXX` (lowercase hex), with a UTF-16 surrogate pair for code points
above U+FFFF. -/
def hexDigitChar (n : Nat) : Char :=
  if n < 10 then Char.ofNat (48 + n) else Char.ofNat (87 + n)

/-- The four lowercase hex digits of `n < 0x10000`, most significant
first (Python's `'\u%04x' % n`). -/
def hex4 (n : Nat) : List Char :=
  [hexDigitChar (n / 4096 % 16), hexDigitChar (n / 256 % 16),
   hexDigitChar (n / 16 % 16), hexDigitChar (n % 16)]

def pyJsonEscapeChar (c : Char) : List Char :=
  if c = '\\' then ['\\', '\\']
  else if c = '"' then ['\\', '"']
  else if c = Char.ofNat 0x08 then ['\\', 'b']
  else if c = Char.ofNat 0x0c then ['\\', 'f']
  else if c = '\n' then ['\\', 'n']
  else if c = '\r' then ['\\', 'r']
  else if c = '\t' then ['\\', 't']
  else if 0x20 ≤ c.toNat ∧ c.toNat ≤ 0x7e then [c]
  else if c.toNat < 0x10000 then '\\' :: 'u' :: hex4 c.toNat
  else
    '\\' :: 'u' :: hex4 (0xd800 + (c.toNat - 0x10000) / 0x400) ++
    '\\' :: 'u' :: hex4 (0xdc00 + (c.toNat - 0x10000) % 0x400)

/-- `json.dumps({"reasoning_effort": v})`: the key needs no escaping, the
default separator after the key is ": ", and the value string is escaped
character by character. -/
def reasoning_kwargs_json (v : String) : String :=
  "\x7b\"reasoning_effort\": \"" ++
  String.mk (v.data.flatMap pyJsonEscapeChar) ++ "\"\x7d"

/-- `generate_command` line 466: `["llama-server", "-m", <model>, "-c",
str(ctx), "-ngl", str(ngl)]`. -/
def base_args (c : Config) : List String :=
  ["llama-server", "-m", pyStrip c.model_path,
   "-c", toString c.ctx_size, "-ngl", toString c.gpu_layers]

/-- `generate_command` lines 470–483: each optional value flag is emitted
with its stripped value when the stripped value is non-empty. -/
def opt_value_tokens (c : Config) : List String :=
  optValueArgs.flatMap
    (fun fv => if pyStrip (fv.2 c) = "" then [] else [fv.1, pyStrip (fv.2 c)])

/-- `generate_command` lines 485–487: the reasoning-effort setting is
passed as the JSON value of `--chat-template-kwargs` (note: the
serialised value is the raw, unstripped setting). -/
def reasoning_tokens (c : Config) : List String :=
  if pyStrip c.reasoning_effort = "" then []
  else ["--chat-template-kwargs", reasoning_kwargs_json c.reasoning_effort]

/-- `generate_command` lines 489–491: `-fa <value>` only when the stripped
value is non-empty and differs from "auto". -/
def flash_attn_tokens (c : Config) : List String :=
  if pyStrip c.flash_attn ≠ "" ∧ pyStrip c.flash_attn ≠ "auto" then
    ["-fa", pyStrip c.flash_attn]
  else []

/-- `generate_command` lines 493–502: bare boolean flags. -/
def bool_flag_tokens (c : Config) : List String :=
  boolFlagArgs.flatMap (fun fv => if fv.2 c then [fv.1] else [])

/-- `generate_command` lines 504–505: NUMA expands to two tokens. -/
def numa_tokens (c : Config) : List String :=
  if c.numa then ["--numa", "distribute"] else []

/-- `generate_command` lines 507–510: each enabled custom argument with
non-empty stripped value contributes its whitespace-split tokens, in list
order. -/
def custom_arg_tokens (c : Config) : List String :=
  c.custom_arguments.flatMap
    (fun a => if a.enabled ∧ pyStrip a.value ≠ "" then pySplit (pyStrip a.value) else [])

/-- `generate_command` (lines 461–512).  Returns `none` (after showing an
error dialog) when the stripped model path is empty; otherwise the full
argument vector, assembled by the source's sequence of `extend`s. -/
def generate_command (c : Config) : Option (List String) :=
  if pyStrip c.model_path = "" then none
  else some (base_args c ++ opt_value_tokens c ++ reasoning_tokens c ++
             flash_attn_tokens c ++ bool_flag_tokens c ++ numa_tokens c ++
             custom_arg_tokens c)

/-! ## Command preview (`show_command`) -/

/-- The per-token quoting of `show_command` line 517:
`f'"{arg}"' if " " in arg else arg` — a token is wrapped in double quotes
exactly when it contains the space character U+0020. -/
def quote_token (arg : String) : String :=
  if ' ' ∈ arg.data then "\"" ++ arg ++ "\"" else arg

/-- The preview string of `show_command` line 517: tokens joined with
single spaces after per-token quoting. -/
def show_command_str (cmd : List String) : String :=
  String.intercalate " " (cmd.map quote_token)

/-! ## Custom-argument list operations -/

/-- `add_custom_argument` (lines 387–397), acting on the entry text and
the current list: strip the text; an empty result or a result equal to an
existing entry's `value` leaves the list unchanged (the duplicate case
shows a warning dialog); otherwise append a new enabled entry. -/
def add_custom_argument (entry_text : String) (l : List CustomArg) : List CustomArg :=
  let arg_text := pyStrip entry_text
  if arg_text = "" then l
  else if l.any (fun a => a.value = arg_text) then l
  else l ++ [{ value := arg_text, enabled := true }]

/-! ## Configuration persistence -/

/-- One custom-argument entry as saved by `json.dump`: the dict
`{"value": ..., "enabled": ...}` verbatim. -/
def customArgToJVal (a : CustomArg) : JVal :=
  .jobj [("value", .jstr a.value), ("enabled", .jbool a.enabled)]

/-- `save_config` (lines 599–624): the flat JSON object written to the
config file, with the source's key order. -/
def save_config (c : Config) : ConfigDoc :=
  [("model_path", .jstr c.model_path), ("alias", .jstr c.alias_name),
   ("lora_path", .jstr c.lora_path), ("mmproj_path", .jstr c.mmproj_path),
   ("chat_template", .jstr c.chat_template),
   ("reasoning_effort", .jstr c.reasoning_effort),
   ("jinja", .jbool c.jinja), ("ctx_size", .jint c.ctx_size),
   ("gpu_layers", .jint c.gpu_layers), ("threads", .jstr c.threads),
   ("batch_size", .jstr c.batch_size),
   ("cont_batching", .jbool c.cont_batching),
   ("parallel", .jstr c.parallel), ("flash_attn", .jstr c.flash_attn),
   ("mlock", .jbool c.mlock), ("no_mmap", .jbool c.no_mmap),
   ("numa", .jbool c.numa), ("moe_cpu_layers", .jstr c.moe_cpu_layers),
   ("draft_model_path", .jstr c.draft_model_path),
   ("draft_gpu_layers", .jstr c.draft_gpu_layers),
   ("draft_tokens", .jstr c.draft_tokens), ("host", .jstr c.host),
   ("port", .jstr c.port), ("api_key", .jstr c.api_key),
   ("no_webui", .jbool c.no_webui), ("embedding", .jbool c.embedding),
   ("verbose", .jbool c.verbose),
   ("custom_arguments_list", .jarr (c.custom_arguments.map customArgToJVal)),
   ("reasoning_format", .jstr c.reasoning_format),
   ("ubatch_size", .jstr c.ubatch_size), ("n_predict", .jstr c.n_predict),
   ("ignore_eos", .jbool c.ignore_eos), ("temp", .jstr c.temp),
   ("top_k", .jstr c.top_k), ("top_p", .jstr c.top_p),
   ("repeat_penalty", .jstr c.repeat_penalty)]

/-- `min`/`max` clamp performed by the Tk `Scale` widget when a value is
pushed into a slider-backed variable (a `Scale.set` outside `[lo, hi]`
snaps to the nearer bound). -/
def clampInt (lo hi n : Int) : Int := max lo (min hi n)

/-- Python's `round(m / d)` for integer `m` and positive power-of-two
`d` (the division is exact in binary floating point, so `round` sees the
exact rational): round half to even. -/
def pyRoundHalfEvenDiv (m : Int) (d : Int) : Int :=
  let q := Int.ediv m d
  let r := Int.emod m d
  if 2 * r < d then q
  else if 2 * r > d then q + 1
  else if Int.emod q 2 = 0 then q else q + 1

/-- `update_slider_label` (lines 364–368) as reached through
`update_all_sliders` at the end of `load_config`: the slider value is
clamped to the scale's range and snapped to the nearest multiple of the
resolution, ties to even (`round(raw / resolution) * resolution`). -/
def snapSlider (lo hi : Int) (res : Int) (n : Int) : Int :=
  pyRoundHalfEvenDiv (clampInt lo hi n) res * res

/-- The custom-argument entry reconstructed from one element of the
loaded `custom_arguments_list`.  The source keeps the raw dicts and every
later reader applies `arg_item.get("value", "")` /
`arg_item.get("enabled", False)`; this eager normalisation is
observationally equal for the documents the claims exercise (which always
carry both keys). -/
def customArgOfJVal : JVal → CustomArg
  | .jobj kvs =>
      { value := match jget kvs "value" with
                 | some j => tkStrOf j
                 | none => ""
        enabled := match jget kvs "enabled" with
                   | some j => tkBoolOf j
                   | none => false }
  | _ => { value := "", enabled := false }

def customArgsOfJVal : JVal → List CustomArg
  | .jarr l => l.map customArgOfJVal
  | _ => []

/-- The body of `load_config` (lines 629–679) applied to a parsed
document: every Tk variable is assigned `config.get(key, default)`; the
custom-argument list is taken from `custom_arguments_list`, with the
legacy migration from the free-text `custom_args` key when the new list
is empty; finally `update_all_sliders` re-clamps and re-snaps the two
slider-backed integers.  Note the source defaults `flash_attn` to the
boolean `False` (not the string "auto"); a Tk `StringVar` renders that
as "0". -/
def apply_config_doc (doc : ConfigDoc) : Config :=
  let getStr := fun (key : String) (dflt : String) =>
    match jget doc key with
    | some j => tkStrOf j
    | none => dflt
  let getBool := fun (key : String) =>
    match jget doc key with
    | some j => tkBoolOf j
    | none => false
  let getInt := fun (key : String) (dflt : Int) =>
    match jget doc key with
    | some j => tkIntOf j
    | none => dflt
  let customs :=
    match jget doc "custom_arguments_list" with
    | some j => customArgsOfJVal j
    | none => []
  let customs :=
    if customs = [] then
      match jget doc "custom_args" with
      | some (.jstr s) => if pyStrip s = "" then customs else customs ++ [{ value := pyStrip s, enabled := true }]
      | some _ => customs
      | none => customs
    else customs
  { model_path := getStr "model_path" ""
    alias_name := getStr "alias" ""
    lora_path := getStr "lora_path" ""
    mmproj_path := getStr "mmproj_path" ""
    chat_template := getStr "chat_template" ""
    reasoning_effort := getStr "reasoning_effort" ""
    jinja := getBool "jinja"
    ctx_size := snapSlider 0 131072 1024 (getInt "ctx_size" 4096)
    gpu_layers := snapSlider 0 99 1 (getInt "gpu_layers" 99)
    threads := getStr "threads" ""
    batch_size := getStr "batch_size" ""
    cont_batching := getBool "cont_batching"
    parallel := getStr "parallel" ""
    flash_attn := (match jget doc "flash_attn" with
                   | some j => tkStrOf j
                   | none => tkStrOf (.jbool false))
    mlock := getBool "mlock"
    no_mmap := getBool "no_mmap"
    numa := getBool "numa"
    moe_cpu_layers := getStr "moe_cpu_layers" ""
    draft_model_path := getStr "draft_model_path" ""
    draft_gpu_layers := getStr "draft_gpu_layers" ""
    draft_tokens := getStr "draft_tokens" ""
    host := getStr "host" "127.0.0.1"
    port := getStr "port" "8080"
    api_key := getStr "api_key" ""
    no_webui := getBool "no_webui"
    embedding := getBool "embedding"
    verbose := getBool "verbose"
    custom_arguments := customs
    reasoning_format := getStr "reasoning_format" ""
    ubatch_size := getStr "ubatch_size" ""
    n_predict := getStr "n_predict" ""
    ignore_eos := getBool "ignore_eos"
    temp := getStr "temp" ""
    top_k := getStr "top_k" ""
    top_p := getStr "top_p" ""
    repeat_penalty := getStr "repeat_penalty" "" }

/-- What `load_config` finds at the config-file path. -/
inductive ConfigFile where
  | absent : ConfigFile
  | malformed : ConfigFile
  | wellFormed : ConfigDoc → ConfigFile

/-- `load_config` (lines 626–681).  Returns the new in-memory
configuration and whether an error dialog was shown.  An absent file is
an early return before the `try` block (line 627): no dialog, no
mutation.  A file that fails `json.load` raises inside the `try` before
any variable is assigned: error dialog, no mutation. -/
def load_config (file : ConfigFile) (s : Config) : Config × Bool :=
  match file with
  | .absent => (s, false)
  | .malformed => (s, true)
  | .wellFormed doc => (apply_config_doc doc, false)

/-! ## Process supervisor (`start_server`) -/

/-- The supervisor-relevant state of the GUI object: the `is_running`
flag, the history of spawned child-process commands (`subprocess.Popen`
calls), and the contents of the output log view. -/
structure SupState where
  is_running : Bool
  spawned : List (List String)
  output : List String
  deriving DecidableEq, Repr

/-- The banner `start_server` writes after clearing the log. -/
def startBanner (cmd : List String) : String :=
  "Starting server with command: " ++ show_command_str cmd

/-- `start_server` (lines 533–575).  Already running: return immediately
(line 534).  `generate_command` failing: return with no side effect
(line 536; the log is only cleared after this check).  Otherwise the log
is reset to the banner, the child process is spawned and `is_running`
becomes true. -/
def start_server (c : Config) (s : SupState) : SupState :=
  if s.is_running then s
  else
    match generate_command c with
    | none => s
    | some cmd =>
        { is_running := true
          spawned := s.spawned ++ [cmd]
          output := [startBanner cmd] }

/-! ## A parser for the reasoning-effort kwargs JSON (claim C6)

To state that the `--chat-template-kwargs` value parses back as
`{"reasoning_effort": v}` we embed the relevant fragment of `json.loads`:
a parser for the exact document shape `json.dumps` produces for a
single-key object whose key is `reasoning_effort`. -/

/-- Value of one hex digit, upper or lower case (as accepted by
`json.loads` in `\uXXXX` escapes). -/
def fromHexDigit (c : Char) : Option Nat :=
  if '0' ≤ c ∧ c ≤ '9' then some (c.toNat - 48)
  else if 'a' ≤ c ∧ c ≤ 'f' then some (c.toNat - 87)
  else if 'A' ≤ c ∧ c ≤ 'F' then some (c.toNat - 55)
  else none

/-- The two-character escapes accepted after a backslash. -/
def jsonShortEscape (e : Char) : Option Char :=
  if e = '"' then some '"'
  else if e = '\\' then some '\\'
  else if e = '/' then some '/'
  else if e = 'b' then some (Char.ofNat 0x08)
  else if e = 'f' then some (Char.ofNat 0x0c)
  else if e = 'n' then some '\n'
  else if e = 'r' then some '\r'
  else if e = 't' then some '\t'
  else none

/-- Value of four hex digit characters, most significant first. -/
def hex4Val (a b c d : Char) : Option Nat :=
  match fromHexDigit a, fromHexDigit b, fromHexDigit c, fromHexDigit d with
  | some x, some y, some z, some w => some (((x * 16 + y) * 16 + z) * 16 + w)
  | _, _, _, _ => none

/-- Continuation of the parser after a high surrogate `n` and the hex
digits of the following `\uXXXX`: demand a low surrogate and combine the
pair into one code point. -/
def parseUPair (next : List Char → Option (List Char × List Char)) (n : Nat) :
    Option Nat → List Char → Option (List Char × List Char)
  | none, _ => none
  | some m, rest4 =>
      if 0xdc00 ≤ m ∧ m ≤ 0xdfff then
        match next rest4 with
        | some (cs, r) =>
            some (Char.ofNat (0x10000 + (n - 0xd800) * 0x400 + (m - 0xdc00)) :: cs, r)
        | none => none
      else none

/-- Continuation of the parser after a `\u` escape whose four hex digits
evaluated to `hv`: if the value is a high surrogate, demand a `\uXXXX`
low surrogate and combine the pair into one code point (as `json.loads`
does); a lone surrogate is rejected (Lean `Char` cannot represent one,
and `json.dumps` output never contains one); otherwise take the value
itself.  `next` parses the remainder of the string body. -/
def parseUCont (next : List Char → Option (List Char × List Char)) :
    Option Nat → List Char → Option (List Char × List Char)
  | none, _ => none
  | some n, rest3 =>
      if 0xd800 ≤ n ∧ n ≤ 0xdbff then
        match rest3 with
        | b2 :: u2 :: e2 :: f2 :: g2 :: h2 :: rest4 =>
            if b2 = '\\' ∧ u2 = 'u' then
              parseUPair next n (hex4Val e2 f2 g2 h2) rest4
            else none
        | _ => none
      else if 0xdc00 ≤ n ∧ n ≤ 0xdfff then none
      else
        match next rest3 with
        | some (cs, r) => some (Char.ofNat n :: cs, r)
        | none => none

/-- Decode a JSON string body up to and including the closing quote,
returning the decoded characters and the remaining input.  Handles the
short escapes, `\uXXXX`, and UTF-16 surrogate pairs.  Unescaped control
characters are rejected (`json.loads` default strict mode).  Fueled
driver; each step consumes at least one input character, so fuel
`length + 1` never runs out. -/
def parseJsonStringBodyF : Nat → List Char → Option (List Char × List Char)
  | 0, _ => none
  | _ + 1, [] => none
  | fuel + 1, ch :: rest =>
      if ch = '"' then some ([], rest)
      else if ch = '\\' then
        match rest with
        | [] => none
        | e :: rest2 =>
            if e = 'u' then
              match rest2 with
              | a :: b :: c :: d :: rest3 =>
                  parseUCont (parseJsonStringBodyF fuel) (hex4Val a b c d) rest3
              | _ => none
            else
              match jsonShortEscape e with
              | some dch =>
                  match parseJsonStringBodyF fuel rest2 with
                  | some (cs, r) => some (dch :: cs, r)
                  | none => none
              | none => none
      else if ch.toNat < 0x20 then none
      else
        match parseJsonStringBodyF fuel rest with
        | some (cs, r) => some (ch :: cs, r)
        | none => none

/-- Decode a JSON string body up to and including the closing quote. -/
def parseJsonStringBody (l : List Char) : Option (List Char × List Char) :=
  parseJsonStringBodyF (l.length + 1) l

/-- Match an expected literal character sequence at the head of the
input. -/
def dropHeadChars : List Char → List Char → Option (List Char)
  | [], l => some l
  | _ :: _, [] => none
  | p :: ps, c :: cs => if p = c then dropHeadChars ps cs else none

/-- Parse a complete document of the shape
`{"reasoning_effort": "<escaped string>"}` — the canonical `json.dumps`
rendering of the single-key object — returning the decoded value. -/
def parse_reasoning_kwargs (s : String) : Option String :=
  match dropHeadChars ("\x7b\"reasoning_effort\": \"").data s.data with
  | none => none
  | some rest =>
      match parseJsonStringBody rest with
      | some (cs, r) => if r = ['\x7d'] then some (String.mk cs) else none
      | none => none

/-! ## The boolean bare-flag settings as first-class fields (claim C8) -/

/-- The eight boolean settings of the `bool_args` table, in table order. -/
inductive BoolFlagField where
  | no_mmap | no_webui | cont_batching | mlock
  | embedding | jinja | verbose | ignore_eos
  deriving DecidableEq, Repr

/-- The bare flag the `bool_args` table associates with each boolean
setting. -/
def BoolFlagField.flag : BoolFlagField → String
  | .no_mmap => "--no-mmap"
  | .no_webui => "--no-webui"
  | .cont_batching => "-cb"
  | .mlock => "--mlock"
  | .embedding => "--embedding"
  | .jinja => "--jinja"
  | .verbose => "-v"
  | .ignore_eos => "--ignore-eos"

/-- Overwrite one boolean bare-flag setting. -/
def BoolFlagField.setVal : BoolFlagField → Bool → Config → Config
  | .no_mmap, b, c => { c with no_mmap := b }
  | .no_webui, b, c => { c with no_webui := b }
  | .cont_batching, b, c => { c with cont_batching := b }
  | .mlock, b, c => { c with mlock := b }
  | .embedding, b, c => { c with embedding := b }
  | .jinja, b, c => { c with jinja := b }
  | .verbose, b, c => { c with verbose := b }
  | .ignore_eos, b, c => { c with ignore_eos := b }

/-- A configuration in which the reasoning-effort setting is the only
non-empty optional string setting: used to state that none of the plain
value flags of the `args` table reads the reasoning-effort setting. -/
def effort_probe : Config :=
  { initial_config with reasoning_effort := "high", host := "", port := "" }

/-! ## Helper lemmas -/

theorem pyStrip_of_all_space {s : String} (h : ∀ ch ∈ s.data, isPySpace ch) :
    pyStrip s = "" := by
  unfold pyStrip pyStripList
  rw [List.dropWhile_eq_nil_iff.mpr h]
  rfl

theorem add_custom_argument_nodup {l : List CustomArg} (t : String)
    (h : (l.map CustomArg.value).Nodup) :
    ((add_custom_argument t l).map CustomArg.value).Nodup := by
  unfold add_custom_argument
  by_cases h0 : pyStrip t = ""
  · simpa [h0]
  · rw [if_neg h0]
    by_cases h1 : l.any (fun a => a.value = pyStrip t)
    · simpa [h1]
    · rw [if_neg h1]
      simp only [List.any_eq_true, decide_eq_true_eq, not_exists, not_and] at h1
      simp only [List.map_append, List.map_cons, List.map_nil]
      rw [List.nodup_append]
      refine ⟨h, List.nodup_singleton _, ?_⟩
      intro v hv hv1
      simp only [List.mem_singleton] at hv1
      obtain ⟨a, ha, rfl⟩ := List.mem_map.mp hv
      exact h1 a ha (by rw [hv1])

theorem string_mk_data (s : String) : String.mk s.data = s := by
  cases s
  rfl

theorem fromHexDigit_hexDigitChar {d : Nat} (h : d < 16) :
    fromHexDigit (hexDigitChar d) = some d := by
  interval_cases d <;> decide

theorem hex_recompose {t : Nat} (h : t < 65536) :
    ((t / 4096 % 16 * 16 + t / 256 % 16) * 16 + t / 16 % 16) * 16 + t % 16 = t := by
  omega

/-- Every Lean `Char` is a unicode scalar value: not a surrogate and
below U+110000. -/
theorem char_not_surrogate (c : Char) :
    c.toNat < 0xd800 ∨ (0xdfff < c.toNat ∧ c.toNat < 0x110000) := by
  have h := c.valid
  unfold UInt32.isValidChar Nat.isValidChar at h
  have he : c.toNat = c.val.toNat := rfl
  rw [he]
  exact h

theorem hex4Val_encode {t : Nat} (h : t < 65536) :
    hex4Val (hexDigitChar (t / 4096 % 16)) (hexDigitChar (t / 256 % 16))
      (hexDigitChar (t / 16 % 16)) (hexDigitChar (t % 16)) = some t := by
  unfold hex4Val
  rw [fromHexDigit_hexDigitChar (Nat.mod_lt _ (by norm_num)),
      fromHexDigit_hexDigitChar (Nat.mod_lt _ (by norm_num)),
      fromHexDigit_hexDigitChar (Nat.mod_lt _ (by norm_num)),
      fromHexDigit_hexDigitChar (Nat.mod_lt _ (by norm_num))]
  exact congrArg some (hex_recompose h)

theorem parseUCont_plain (next : List Char → Option (List Char × List Char))
    (n : Nat) (r : List Char)
    (h1 : ¬(0xd800 ≤ n ∧ n ≤ 0xdbff)) (h2 : ¬(0xdc00 ≤ n ∧ n ≤ 0xdfff)) :
    parseUCont next (some n) r =
      (next r).map (fun p => (Char.ofNat n :: p.1, p.2)) := by
  simp only [parseUCont]
  rw [if_neg h1, if_neg h2]
  cases hp : next r with
  | none => rfl
  | some p => rfl

theorem parseUCont_surrogate (next : List Char → Option (List Char × List Char))
    (n m : Nat) (r : List Char)
    (hhi : 0xd800 ≤ n ∧ n ≤ 0xdbff) (h16 : m < 65536)
    (hlo : 0xdc00 ≤ m ∧ m ≤ 0xdfff) :
    parseUCont next (some n)
        ('\\' :: 'u' :: (hex4 m ++ r)) =
      (next r).map
        (fun p => (Char.ofNat (0x10000 + (n - 0xd800) * 0x400 + (m - 0xdc00)) :: p.1, p.2)) := by
  rw [show parseUCont next (some n) ('\\' :: 'u' :: (hex4 m ++ r)) =
        (if 0xd800 ≤ n ∧ n ≤ 0xdbff then
          parseUPair next n
            (hex4Val (hexDigitChar (m / 4096 % 16)) (hexDigitChar (m / 256 % 16))
              (hexDigitChar (m / 16 % 16)) (hexDigitChar (m % 16))) r
        else if 0xdc00 ≤ n ∧ n ≤ 0xdfff then none
        else
          match next ('\\' :: 'u' :: (hex4 m ++ r)) with
          | some (cs, rr) => some (Char.ofNat n :: cs, rr)
          | none => none) from rfl]
  rw [if_pos hhi, hex4Val_encode h16]
  simp only [parseUPair]
  rw [if_pos hlo]
  cases hp : next r with
  | none => rfl
  | some p => rfl

/-- One definitional step of the parser at a `\u` escape. -/
theorem parseBodyF_u_step (fuel : Nat) (n : Nat) (tail : List Char) :
    parseJsonStringBodyF (fuel + 1) ('\\' :: 'u' :: (hex4 n ++ tail)) =
      parseUCont (parseJsonStringBodyF fuel)
        (hex4Val (hexDigitChar (n / 4096 % 16)) (hexDigitChar (n / 256 % 16))
          (hexDigitChar (n / 16 % 16)) (hexDigitChar (n % 16))) tail := rfl

/-- Decoding one serialised character: the parser consumes exactly the
escape `json.dumps` produced for `ch` and emits `ch`. -/
theorem parseBodyF_escape (fuel : Nat) (ch : Char) (r : List Char) :
    parseJsonStringBodyF (fuel + 1) (pyJsonEscapeChar ch ++ r) =
      (parseJsonStringBodyF fuel r).map (fun p => (ch :: p.1, p.2)) := by
  unfold pyJsonEscapeChar
  split_ifs with h1 h2 h3 h4 h5 h6 h7 h8 h9
  · subst h1
    rw [show parseJsonStringBodyF (fuel + 1) (['\\', '\\'] ++ r) =
          match parseJsonStringBodyF fuel r with
          | some (cs, t) => some ('\\' :: cs, t)
          | none => none from rfl]
    cases hp : parseJsonStringBodyF fuel r with
    | none => rfl
    | some p => rfl
  · subst h2
    rw [show parseJsonStringBodyF (fuel + 1) (['\\', '"'] ++ r) =
          match parseJsonStringBodyF fuel r with
          | some (cs, t) => some ('"' :: cs, t)
          | none => none from rfl]
    cases hp : parseJsonStringBodyF fuel r with
    | none => rfl
    | some p => rfl
  · subst h3
    rw [show parseJsonStringBodyF (fuel + 1) (['\\', 'b'] ++ r) =
          match parseJsonStringBodyF fuel r with
          | some (cs, t) => some (Char.ofNat 0x08 :: cs, t)
          | none => none from rfl]
    cases hp : parseJsonStringBodyF fuel r with
    | none => rfl
    | some p => rfl
  · subst h4
    rw [show parseJsonStringBodyF (fuel + 1) (['\\', 'f'] ++ r) =
          match parseJsonStringBodyF fuel r with
          | some (cs, t) => some (Char.ofNat 0x0c :: cs, t)
          | none => none from rfl]
    cases hp : parseJsonStringBodyF fuel r with
    | none => rfl
    | some p => rfl
  · subst h5
    rw [show parseJsonStringBodyF (fuel + 1) (['\\', 'n'] ++ r) =
          match parseJsonStringBodyF fuel r with
          | some (cs, t) => some ('\n' :: cs, t)
          | none => none from rfl]
    cases hp : parseJsonStringBodyF fuel r with
    | none => rfl
    | some p => rfl
  · subst h6
    rw [show parseJsonStringBodyF (fuel + 1) (['\\', 'r'] ++ r) =
          match parseJsonStringBodyF fuel r with
          | some (cs, t) => some ('\r' :: cs, t)
          | none => none from rfl]
    cases hp : parseJsonStringBodyF fuel r with
    | none => rfl
    | some p => rfl
  · subst h7
    rw [show parseJsonStringBodyF (fuel + 1) (['\\', 't'] ++ r) =
          match parseJsonStringBodyF fuel r with
          | some (cs, t) => some ('\t' :: cs, t)
          | none => none from rfl]
    cases hp : parseJsonStringBodyF fuel r with
    | none => rfl
    | some p => rfl
  -- printable ASCII, emitted literally
  · have hc : ¬(ch.toNat < 0x20) := by omega
    simp only [List.cons_append, List.nil_append, List.append_eq, parseJsonStringBodyF]
    rw [if_neg h2, if_neg h1, if_neg hc]
    cases hp : parseJsonStringBodyF fuel r with
    | none => rfl
    | some p => rfl
  -- \uXXXX for one code point below U+10000
  · have hns : ¬(0xd800 ≤ ch.toNat ∧ ch.toNat ≤ 0xdbff) := by
      rcases char_not_surrogate ch with hs | hs <;> omega
    have hns2 : ¬(0xdc00 ≤ ch.toNat ∧ ch.toNat ≤ 0xdfff) := by
      rcases char_not_surrogate ch with hs | hs <;> omega
    simp only [List.cons_append]
    rw [parseBodyF_u_step, hex4Val_encode h9, parseUCont_plain _ _ _ hns hns2]
    simp only [Char.ofNat_toNat]
  -- surrogate pair for a code point at or above U+10000
  · have hv : ch.toNat < 0x110000 := by
      rcases char_not_surrogate ch with hs | hs <;> omega
    have hge : 0x10000 ≤ ch.toNat := by omega
    generalize hH : 0xd800 + (ch.toNat - 0x10000) / 0x400 = hi
    generalize hL : 0xdc00 + (ch.toNat - 0x10000) % 0x400 = lo
    have hmod : (ch.toNat - 0x10000) % 0x400 < 0x400 :=
      Nat.mod_lt _ (by norm_num)
    have hq : (ch.toNat - 0x10000) / 0x400 ≤ 0x3ff := by omega
    have hhi16 : hi < 65536 := by omega
    have hlo16 : lo < 65536 := by omega
    have hhi : 0xd800 ≤ hi ∧ hi ≤ 0xdbff := by omega
    have hlo : 0xdc00 ≤ lo ∧ lo ≤ 0xdfff := by omega
    have hrec : 0x10000 + (hi - 0xd800) * 0x400 + (lo - 0xdc00) = ch.toNat := by omega
    simp only [List.cons_append, List.append_assoc]
    rw [parseBodyF_u_step, hex4Val_encode hhi16, parseUCont_surrogate _ _ _ _ hhi hlo16 hlo]
    simp only [hrec, Char.ofNat_toNat]

/-- Decoding a fully serialised string body followed by the closing quote
recovers the original characters, for any sufficient fuel. -/
theorem parse_serialized_body (v r : List Char) :
    ∀ fuel, v.length + 1 ≤ fuel →
      parseJsonStringBodyF fuel (v.flatMap pyJsonEscapeChar ++ ('"' :: r)) = some (v, r) := by
  induction v with
  | nil =>
      intro fuel hf
      obtain ⟨k, rfl⟩ : ∃ k, fuel = k + 1 := ⟨fuel - 1, by omega⟩
      rfl
  | cons ch cs ih =>
      intro fuel hf
      obtain ⟨k, rfl⟩ : ∃ k, fuel = k + 1 := ⟨fuel - 1, by omega⟩
      rw [List.flatMap_cons, List.append_assoc, parseBodyF_escape,
          ih k (by simp only [List.length_cons] at hf; omega)]
      rfl

theorem escape_length_pos (c : Char) : 0 < (pyJsonEscapeChar c).length := by
  unfold pyJsonEscapeChar
  split_ifs <;> simp [hex4]

theorem flatMap_escape_length (v : List Char) :
    v.length ≤ (v.flatMap pyJsonEscapeChar).length := by
  induction v with
  | nil => simp
  | cons c cs ih =>
      rw [List.flatMap_cons, List.length_append, List.length_cons]
      have := escape_length_pos c
      omega

theorem parseJsonStringBody_serialized (v r : List Char) :
    parseJsonStringBody (v.flatMap pyJsonEscapeChar ++ ('"' :: r)) = some (v, r) := by
  unfold parseJsonStringBody
  apply parse_serialized_body
  have := flatMap_escape_length v
  rw [List.length_append, List.length_cons]
  omega

theorem dropHeadChars_append (p l : List Char) : dropHeadChars p (p ++ l) = some l := by
  induction p with
  | nil => rfl
  | cons a ps ih => simp [dropHeadChars, ih]

/-- The `--chat-template-kwargs` value built by `generate_command` parses
back as the single-key JSON object `{"reasoning_effort": v}`, for every
value `v` of the setting. -/
theorem parse_reasoning_kwargs_json (v : String) :
    parse_reasoning_kwargs (reasoning_kwargs_json v) = some v := by
  have htail : ("\"\x7d" : String).data = '"' :: ['\x7d'] := rfl
  have hdata : (reasoning_kwargs_json v).data =
      ("\x7b\"reasoning_effort\": \"").data ++
        (v.data.flatMap pyJsonEscapeChar ++ ('"' :: ['\x7d'])) := by
    unfold reasoning_kwargs_json
    rw [String.data_append, String.data_append, htail, List.append_assoc]
  unfold parse_reasoning_kwargs
  rw [hdata, dropHeadChars_append]
  simp only [parseJsonStringBody_serialized]
  rw [if_pos trivial, string_mk_data]


theorem snapSlider_fixed {lo hi res n : Int} (hres : 0 < res) (h1 : lo ≤ n) (h2 : n ≤ hi)
    (h3 : Int.emod n res = 0) : snapSlider lo hi res n = n := by
  have hdvd : res ∣ n := Int.dvd_of_emod_eq_zero h3
  unfold snapSlider clampInt pyRoundHalfEvenDiv
  rw [show max lo (min hi n) = n by omega, h3]
  rw [if_pos (by omega : 2 * (0 : Int) < res)]
  exact Int.ediv_mul_cancel hdvd

theorem customArg_decode_encode (a : CustomArg) :
    customArgOfJVal (customArgToJVal a) = a := by
  cases a
  rfl

theorem customArgs_decode_encode (l : List CustomArg) :
    customArgsOfJVal (JVal.jarr (l.map customArgToJVal)) = l := by
  show (l.map customArgToJVal).map customArgOfJVal = l
  induction l with
  | nil => rfl
  | cons a t ih => simp only [List.map_cons, customArg_decode_encode, ih]

/-- `generate_command` with the boolean bare-flag table unfolded. -/
theorem generate_command_expand (c : Config) :
    generate_command c =
      (if pyStrip c.model_path = "" then none else
        some (base_args c ++ opt_value_tokens c ++ reasoning_tokens c ++ flash_attn_tokens c ++
          ((if c.no_mmap then ["--no-mmap"] else []) ++
           ((if c.no_webui then ["--no-webui"] else []) ++
            ((if c.cont_batching then ["-cb"] else []) ++
             ((if c.mlock then ["--mlock"] else []) ++
              ((if c.embedding then ["--embedding"] else []) ++
               ((if c.jinja then ["--jinja"] else []) ++
                ((if c.verbose then ["-v"] else []) ++
                 ((if c.ignore_eos then ["--ignore-eos"] else []) ++ [])))))))) ++
          numa_tokens c ++ custom_arg_tokens c)) := rfl

/-! ## Claim theorems -/

/-- C1: with model path "model.gguf", context size 4096, GPU layers 99,
every other string setting empty (including host, port and
flash-attention), every boolean false and no custom arguments,
`generate_command` returns exactly
`["llama-server", "-m", "model.gguf", "-c", "4096", "-ngl", "99"]`. -/
theorem c1_minimal_vector :
    generate_command
      { model_path := "model.gguf", alias_name := "", lora_path := "",
        mmproj_path := "", chat_template := "", reasoning_format := "",
        reasoning_effort := "", jinja := false, n_predict := "",
        ignore_eos := false, temp := "", top_k := "", top_p := "",
        repeat_penalty := "", ctx_size := 4096, gpu_layers := 99,
        threads := "", batch_size := "", ubatch_size := "", parallel := "",
        cont_batching := false, flash_attn := "", moe_cpu_layers := "",
        mlock := false, no_mmap := false, numa := false,
        draft_model_path := "", draft_gpu_layers := "", draft_tokens := "",
        host := "", port := "", api_key := "", no_webui := false,
        embedding := false, verbose := false, custom_arguments := [] } =
      some ["llama-server", "-m", "model.gguf", "-c", "4096", "-ngl", "99"] := by
  decide

/-- C2: when the model-path setting is empty or whitespace-only,
`generate_command` fails with the missing-model-path error (returns no
vector), and a start request in that state spawns no child process and
leaves the supervisor state — run flag, spawn history and log —
unchanged. -/
theorem c2_blank_model_path (c : Config) (s : SupState)
    (h : ∀ ch ∈ c.model_path.data, isPySpace ch) :
    generate_command c = none ∧ start_server c s = s := by
  have hmp : pyStrip c.model_path = "" := pyStrip_of_all_space h
  have hg : generate_command c = none := by
    unfold generate_command
    rw [if_pos hmp]
  refine ⟨hg, ?_⟩
  cases hb : s.is_running <;> simp [start_server, hb, hg]

theorem c2_witness :
    generate_command { initial_config with model_path := " \t " } = none ∧
    start_server { initial_config with model_path := " \t " }
        { is_running := false, spawned := [], output := [] } =
      { is_running := false, spawned := [], output := [] } :=
  c2_blank_model_path _ _ (by decide)

/-- C3 (code bug): loading an empty configuration document restores every
documented default except flash-attention.  `load_config` line 646 passes
the boolean `False` (not the string "auto") as the default for
`flash_attn`, and a Tk `StringVar` renders it as "0" — contradicting the
widget's own initial value "auto" (and its tooltip), and making a
subsequent `generate_command` emit `-fa 0`. -/
theorem c3_flash_attn_default_slip :
    apply_config_doc [] = { initial_config with flash_attn := "0" } ∧
    ({ initial_config with flash_attn := "0" } : Config).flash_attn ≠ "auto" := by
  decide

/-- C5: a start request while the supervisor is already running (a start
succeeded, no stop observed) is a no-op — no second child process, no
state change beyond the first transition, exactly one spawned process. -/
theorem c5_start_guard (c1 c2 : Config) (s : SupState)
    (h0 : s.is_running = false)
    (h1 : (start_server c1 s).is_running = true) :
    start_server c2 (start_server c1 s) = start_server c1 s ∧
    ∃ cmd, generate_command c1 = some cmd ∧
      (start_server c1 s).spawned = s.spawned ++ [cmd] := by
  rcases hg : generate_command c1 with _ | cmd
  · exfalso
    simp [start_server, h0, hg] at h1
  · refine ⟨?_, cmd, rfl, ?_⟩ <;> simp [start_server, h0, hg]

theorem c5_witness :
    start_server initial_config
        (start_server { initial_config with model_path := "m" }
          { is_running := false, spawned := [], output := [] }) =
      start_server { initial_config with model_path := "m" }
        { is_running := false, spawned := [], output := [] } ∧
    ∃ cmd, generate_command { initial_config with model_path := "m" } = some cmd ∧
      (start_server { initial_config with model_path := "m" }
        { is_running := false, spawned := [], output := [] }).spawned = [] ++ [cmd] :=
  c5_start_guard _ _ _ rfl (by decide)

/-- C7 counterexample: the preview quotes a token only when it contains
the space character U+0020.  The token "x<TAB>y" contains a whitespace
character but is left unquoted, refuting the claim that any
whitespace-containing token is wrapped in double quotes. -/
theorem c7_counterexample :
    show_command_str ["x\ty"] = "x\ty" ∧ isPySpace '\t' = true ∧
    show_command_str ["x\ty"] ≠ "\"x\ty\"" := by
  decide

/-- C7 (amended): the preview string joins the tokens with single spaces
and wraps a token in double quotes exactly when it contains the space
character U+0020 (not an arbitrary whitespace character); no other
escaping is performed — the quoted form is literally the token between
two quote characters. -/
theorem c7_space_only_quoting (cmd : List String) (arg : String) :
    show_command_str cmd = String.intercalate " " (cmd.map quote_token) ∧
    (quote_token arg = "\"" ++ arg ++ "\"" ↔ ' ' ∈ arg.data) ∧
    (quote_token arg = arg ↔ ' ' ∉ arg.data) := by
  have hq : ("\"" : String).length = 1 := rfl
  have hlen : ("\"" ++ arg ++ "\"").length = arg.length + 2 := by
    rw [String.length_append, String.length_append, hq]
    omega
  have hne : "\"" ++ arg ++ "\"" ≠ arg := by
    intro he
    rw [he] at hlen
    omega
  refine ⟨rfl, ?_, ?_⟩
  · constructor
    · intro h
      by_contra hmem
      rw [quote_token, if_neg hmem] at h
      exact hne h.symm
    · intro hmem
      rw [quote_token, if_pos hmem]
  · constructor
    · intro h
      intro hmem
      rw [quote_token, if_pos hmem] at h
      exact hne h
    · intro hmem
      rw [quote_token, if_neg hmem]

/-- C9: adding an entry whose stripped text equals an existing entry's
value leaves the list unchanged (the add is rejected), and therefore any
sequence of add operations starting from the empty list yields a list
with pairwise distinct value strings. -/
theorem c9_duplicate_rejected_and_unique :
    (∀ (l : List CustomArg) (t : String),
        pyStrip t ∈ l.map CustomArg.value → add_custom_argument t l = l) ∧
    (∀ ts : List String,
        ((ts.foldl (fun l t => add_custom_argument t l) []).map CustomArg.value).Nodup) := by
  constructor
  · intro l t h
    unfold add_custom_argument
    by_cases h0 : pyStrip t = ""
    · rw [if_pos h0]
    · rw [if_neg h0, if_pos]
      rw [List.any_eq_true]
      obtain ⟨a, ha, hv⟩ := List.mem_map.mp h
      exact ⟨a, ha, by simp [hv]⟩
  · intro ts
    suffices hstep : ∀ (l : List CustomArg), (l.map CustomArg.value).Nodup →
        ((ts.foldl (fun l t => add_custom_argument t l) l).map CustomArg.value).Nodup from
      hstep [] (by simp)
    induction ts with
    | nil => intro l hl; simpa
    | cons t ts ih =>
        intro l hl
        exact ih _ (add_custom_argument_nodup t hl)

theorem c9_witness :
    add_custom_argument " x " [{ value := "x", enabled := false }] =
      [{ value := "x", enabled := false }] :=
  c9_duplicate_rejected_and_unique.1 _ _ (by decide)

/-- C10: when the configuration file does not exist, `load_config`
returns immediately: no error dialog and no change to any in-memory
setting or to the custom-argument list — unlike a malformed file, which
does surface an error (still without mutating state). -/
theorem c10_absent_file_noop (s : Config) :
    load_config ConfigFile.absent s = (s, false) ∧
    load_config ConfigFile.malformed s = (s, true) :=
  ⟨rfl, rfl⟩

/-- C4 counterexample: save/load is not the identity on every in-memory
state.  With context size 4000 (not a multiple of the slider resolution
1024), `load_config` re-snaps the value to 4096 via
`update_all_sliders`, so the round trip does not reproduce the state —
and the custom-argument migration is not involved at all. -/
theorem c4_counterexample :
    (load_config (ConfigFile.wellFormed (save_config { initial_config with ctx_size := 4000 }))
        initial_config).1.ctx_size = 4096 ∧
    ({ initial_config with ctx_size := 4000 } : Config).ctx_size = 4000 ∧
    load_config (ConfigFile.wellFormed (save_config { initial_config with ctx_size := 4000 }))
        initial_config ≠
      ({ initial_config with ctx_size := 4000 }, false) := by
  decide

/-- C8 counterexample: flipping one boolean flag from false to true does
not leave every other token's position unchanged.  With NUMA enabled,
enabling `--no-mmap` shifts the token "--numa" from index 7 to index 8. -/
theorem c8_counterexample :
    generate_command
      { initial_config with
        model_path := "m", host := "", port := "",
        flash_attn := "", numa := true } =
      some ["llama-server", "-m", "m", "-c", "4096", "-ngl", "99", "--numa", "distribute"] ∧
    generate_command
      { initial_config with
        model_path := "m", host := "", port := "",
        flash_attn := "", numa := true, no_mmap := true } =
      some ["llama-server", "-m", "m", "-c", "4096", "-ngl", "99", "--no-mmap", "--numa", "distribute"] ∧
    (["llama-server", "-m", "m", "-c", "4096", "-ngl", "99", "--numa", "distribute"] : List String)[7]? =
      some "--numa" ∧
    (["llama-server", "-m", "m", "-c", "4096", "-ngl", "99", "--no-mmap", "--numa", "distribute"] : List String)[7]? =
      some "--no-mmap" := by
  decide


/-- C4 (amended): saving and then loading reproduces the identical
in-memory state — settings and custom-argument list with enabled flags,
regardless of the prior state — provided the two slider-backed integer
settings lie in their slider ranges and context size is a multiple of
its slider resolution 1024 (as every state produced through the UI or a
prior load is); the legacy `custom_args` migration never triggers on a
saved document because `save_config` always writes the
`custom_arguments_list` key and never writes `custom_args`.  (Without
the slider proviso the round trip re-snaps the value; see the
counterexample.) -/
theorem c4_save_load_roundtrip (c s : Config)
    (h1 : 0 ≤ c.ctx_size) (h2 : c.ctx_size ≤ 131072)
    (h3 : Int.emod c.ctx_size 1024 = 0)
    (h4 : 0 ≤ c.gpu_layers) (h5 : c.gpu_layers ≤ 99) :
    load_config (ConfigFile.wellFormed (save_config c)) s = (c, false) := by
  have hctx : snapSlider 0 131072 1024 c.ctx_size = c.ctx_size :=
    snapSlider_fixed (by norm_num) h1 h2 h3
  have hgpu : snapSlider 0 99 1 c.gpu_layers = c.gpu_layers :=
    snapSlider_fixed (by norm_num) h4 h5 (Int.emod_one c.gpu_layers)
  have hk_model_path : jget (save_config c) "model_path" = some (JVal.jstr c.model_path) := rfl
  have hk_alias : jget (save_config c) "alias" = some (JVal.jstr c.alias_name) := rfl
  have hk_lora_path : jget (save_config c) "lora_path" = some (JVal.jstr c.lora_path) := rfl
  have hk_mmproj_path : jget (save_config c) "mmproj_path" = some (JVal.jstr c.mmproj_path) := rfl
  have hk_chat_template : jget (save_config c) "chat_template" = some (JVal.jstr c.chat_template) := rfl
  have hk_reasoning_effort : jget (save_config c) "reasoning_effort" = some (JVal.jstr c.reasoning_effort) := rfl
  have hk_jinja : jget (save_config c) "jinja" = some (JVal.jbool c.jinja) := rfl
  have hk_ctx_size : jget (save_config c) "ctx_size" = some (JVal.jint c.ctx_size) := rfl
  have hk_gpu_layers : jget (save_config c) "gpu_layers" = some (JVal.jint c.gpu_layers) := rfl
  have hk_threads : jget (save_config c) "threads" = some (JVal.jstr c.threads) := rfl
  have hk_batch_size : jget (save_config c) "batch_size" = some (JVal.jstr c.batch_size) := rfl
  have hk_cont_batching : jget (save_config c) "cont_batching" = some (JVal.jbool c.cont_batching) := rfl
  have hk_parallel : jget (save_config c) "parallel" = some (JVal.jstr c.parallel) := rfl
  have hk_flash_attn : jget (save_config c) "flash_attn" = some (JVal.jstr c.flash_attn) := rfl
  have hk_mlock : jget (save_config c) "mlock" = some (JVal.jbool c.mlock) := rfl
  have hk_no_mmap : jget (save_config c) "no_mmap" = some (JVal.jbool c.no_mmap) := rfl
  have hk_numa : jget (save_config c) "numa" = some (JVal.jbool c.numa) := rfl
  have hk_moe_cpu_layers : jget (save_config c) "moe_cpu_layers" = some (JVal.jstr c.moe_cpu_layers) := rfl
  have hk_draft_model_path : jget (save_config c) "draft_model_path" = some (JVal.jstr c.draft_model_path) := rfl
  have hk_draft_gpu_layers : jget (save_config c) "draft_gpu_layers" = some (JVal.jstr c.draft_gpu_layers) := rfl
  have hk_draft_tokens : jget (save_config c) "draft_tokens" = some (JVal.jstr c.draft_tokens) := rfl
  have hk_host : jget (save_config c) "host" = some (JVal.jstr c.host) := rfl
  have hk_port : jget (save_config c) "port" = some (JVal.jstr c.port) := rfl
  have hk_api_key : jget (save_config c) "api_key" = some (JVal.jstr c.api_key) := rfl
  have hk_no_webui : jget (save_config c) "no_webui" = some (JVal.jbool c.no_webui) := rfl
  have hk_embedding : jget (save_config c) "embedding" = some (JVal.jbool c.embedding) := rfl
  have hk_verbose : jget (save_config c) "verbose" = some (JVal.jbool c.verbose) := rfl
  have hk_custom_arguments_list : jget (save_config c) "custom_arguments_list" = some (JVal.jarr (c.custom_arguments.map customArgToJVal)) := rfl
  have hk_reasoning_format : jget (save_config c) "reasoning_format" = some (JVal.jstr c.reasoning_format) := rfl
  have hk_ubatch_size : jget (save_config c) "ubatch_size" = some (JVal.jstr c.ubatch_size) := rfl
  have hk_n_predict : jget (save_config c) "n_predict" = some (JVal.jstr c.n_predict) := rfl
  have hk_ignore_eos : jget (save_config c) "ignore_eos" = some (JVal.jbool c.ignore_eos) := rfl
  have hk_temp : jget (save_config c) "temp" = some (JVal.jstr c.temp) := rfl
  have hk_top_k : jget (save_config c) "top_k" = some (JVal.jstr c.top_k) := rfl
  have hk_top_p : jget (save_config c) "top_p" = some (JVal.jstr c.top_p) := rfl
  have hk_repeat_penalty : jget (save_config c) "repeat_penalty" = some (JVal.jstr c.repeat_penalty) := rfl
  have hk_custom_args : jget (save_config c) "custom_args" = none := rfl
  suffices hd : apply_config_doc (save_config c) = c by
    show (apply_config_doc (save_config c), false) = (c, false)
    rw [hd]
  unfold apply_config_doc
  simp only [hk_model_path, hk_alias, hk_lora_path, hk_mmproj_path, hk_chat_template, hk_reasoning_effort, hk_jinja, hk_ctx_size, hk_gpu_layers, hk_threads, hk_batch_size, hk_cont_batching, hk_parallel, hk_flash_attn, hk_mlock, hk_no_mmap, hk_numa, hk_moe_cpu_layers, hk_draft_model_path, hk_draft_gpu_layers, hk_draft_tokens, hk_host, hk_port, hk_api_key, hk_no_webui, hk_embedding, hk_verbose, hk_custom_arguments_list, hk_reasoning_format, hk_ubatch_size, hk_n_predict, hk_ignore_eos, hk_temp, hk_top_k, hk_top_p, hk_repeat_penalty, hk_custom_args, tkStrOf, tkBoolOf, tkIntOf,
             customArgs_decode_encode, hctx, hgpu, ite_self]

theorem c4_witness :
    load_config
        (ConfigFile.wellFormed
          (save_config { initial_config with custom_arguments := [{ value := "--foo bar", enabled := true }] }))
        initial_config =
      ({ initial_config with custom_arguments := [{ value := "--foo bar", enabled := true }] }, false) :=
  c4_save_load_roundtrip _ _ (by decide) (by decide) (by decide) (by decide) (by decide)

/-- C6: whenever the reasoning-effort setting is non-empty after
trimming (and a vector is produced at all, i.e. the model path is set),
the vector contains the consecutive pair `--chat-template-kwargs`
followed by the `json.dumps` serialisation of
`{"reasoning_effort": v}` with `v` the raw setting value, and that
token parses back as exactly that single-key JSON object; when the
setting is empty or whitespace-only the builder emits no such pair —
the vector is exactly the assembly of all remaining parts; and no entry
of the plain value-flag table reads the reasoning-effort setting (so it
is never emitted as a plain flag-value pair). -/
theorem c6_reasoning_effort_kwargs (c : Config)
    (hm : ¬(pyStrip c.model_path = "")) :
    (¬(pyStrip c.reasoning_effort = "") →
      ∃ A B, generate_command c =
        some (A ++ "--chat-template-kwargs" ::
              reasoning_kwargs_json c.reasoning_effort :: B)) ∧
    parse_reasoning_kwargs (reasoning_kwargs_json c.reasoning_effort) =
      some c.reasoning_effort ∧
    (pyStrip c.reasoning_effort = "" →
      generate_command c =
        some (base_args c ++ opt_value_tokens c ++ flash_attn_tokens c ++
              bool_flag_tokens c ++ numa_tokens c ++ custom_arg_tokens c)) ∧
    (∀ fv ∈ optValueArgs, fv.2 effort_probe = "") := by
  refine ⟨?_, parse_reasoning_kwargs_json c.reasoning_effort, ?_, ?_⟩
  · intro he
    refine ⟨base_args c ++ opt_value_tokens c,
            flash_attn_tokens c ++ bool_flag_tokens c ++ numa_tokens c ++
              custom_arg_tokens c, ?_⟩
    unfold generate_command reasoning_tokens
    rw [if_neg hm, if_neg he]
    simp [List.append_assoc]
  · intro he
    unfold generate_command reasoning_tokens
    rw [if_neg hm, if_pos he]
    simp [List.append_assoc]
  · intro fv hfv
    simp only [optValueArgs] at hfv
    fin_cases hfv <;> rfl

theorem c6_witness :
    parse_reasoning_kwargs (reasoning_kwargs_json "high") = some "high" :=
  (c6_reasoning_effort_kwargs
    { initial_config with model_path := "m", reasoning_effort := "high" }
    (by decide)).2.1

/-- C8 (amended): flipping exactly one boolean bare-flag setting from
false to true inserts exactly one extra token — the bare flag — at its
table position, and flipping it back removes it: the two vectors differ
by that single insertion, so the relative order of all other tokens is
unchanged (tokens after the insertion point shift by one position; they
do not keep their absolute indices — see the counterexample). -/
theorem c8_one_flag_insertion (c : Config) (f : BoolFlagField)
    (h : ¬(pyStrip c.model_path = "")) :
    ∃ A B, generate_command (f.setVal false c) = some (A ++ B) ∧
      generate_command (f.setVal true c) = some (A ++ f.flag :: B) ∧
      (A ++ f.flag :: B).length = (A ++ B).length + 1 := by
  cases f
  case no_mmap =>
    have hgen : ∀ b, generate_command (BoolFlagField.setVal BoolFlagField.no_mmap b c) =
        (if pyStrip c.model_path = "" then none else
          some (base_args c ++ opt_value_tokens c ++ reasoning_tokens c ++ flash_attn_tokens c ++
            ((if b then ["--no-mmap"] else []) ++
             ((if c.no_webui then ["--no-webui"] else []) ++
             ((if c.cont_batching then ["-cb"] else []) ++
             ((if c.mlock then ["--mlock"] else []) ++
             ((if c.embedding then ["--embedding"] else []) ++
             ((if c.jinja then ["--jinja"] else []) ++
             ((if c.verbose then ["-v"] else []) ++
             ((if c.ignore_eos then ["--ignore-eos"] else []) ++
             [])))))))) ++
            numa_tokens c ++ custom_arg_tokens c)) := fun b => rfl
    refine ⟨base_args c ++ opt_value_tokens c ++ reasoning_tokens c ++ flash_attn_tokens c,
            ((if c.no_webui then ["--no-webui"] else []) ++ (if c.cont_batching then ["-cb"] else []) ++ (if c.mlock then ["--mlock"] else []) ++ (if c.embedding then ["--embedding"] else []) ++ (if c.jinja then ["--jinja"] else []) ++ (if c.verbose then ["-v"] else []) ++ (if c.ignore_eos then ["--ignore-eos"] else [])) ++
            numa_tokens c ++ custom_arg_tokens c,
            ?_, ?_, by simp <;> omega⟩
    · rw [hgen false, if_neg h]
      simp [List.append_assoc, BoolFlagField.flag]
    · rw [hgen true, if_neg h]
      simp [List.append_assoc, BoolFlagField.flag]
  case no_webui =>
    have hgen : ∀ b, generate_command (BoolFlagField.setVal BoolFlagField.no_webui b c) =
        (if pyStrip c.model_path = "" then none else
          some (base_args c ++ opt_value_tokens c ++ reasoning_tokens c ++ flash_attn_tokens c ++
            ((if c.no_mmap then ["--no-mmap"] else []) ++
             ((if b then ["--no-webui"] else []) ++
             ((if c.cont_batching then ["-cb"] else []) ++
             ((if c.mlock then ["--mlock"] else []) ++
             ((if c.embedding then ["--embedding"] else []) ++
             ((if c.jinja then ["--jinja"] else []) ++
             ((if c.verbose then ["-v"] else []) ++
             ((if c.ignore_eos then ["--ignore-eos"] else []) ++
             [])))))))) ++
            numa_tokens c ++ custom_arg_tokens c)) := fun b => rfl
    refine ⟨base_args c ++ opt_value_tokens c ++ reasoning_tokens c ++ flash_attn_tokens c ++
            ((if c.no_mmap then ["--no-mmap"] else [])),
            ((if c.cont_batching then ["-cb"] else []) ++ (if c.mlock then ["--mlock"] else []) ++ (if c.embedding then ["--embedding"] else []) ++ (if c.jinja then ["--jinja"] else []) ++ (if c.verbose then ["-v"] else []) ++ (if c.ignore_eos then ["--ignore-eos"] else [])) ++
            numa_tokens c ++ custom_arg_tokens c,
            ?_, ?_, by simp <;> omega⟩
    · rw [hgen false, if_neg h]
      simp [List.append_assoc, BoolFlagField.flag]
    · rw [hgen true, if_neg h]
      simp [List.append_assoc, BoolFlagField.flag]
  case cont_batching =>
    have hgen : ∀ b, generate_command (BoolFlagField.setVal BoolFlagField.cont_batching b c) =
        (if pyStrip c.model_path = "" then none else
          some (base_args c ++ opt_value_tokens c ++ reasoning_tokens c ++ flash_attn_tokens c ++
            ((if c.no_mmap then ["--no-mmap"] else []) ++
             ((if c.no_webui then ["--no-webui"] else []) ++
             ((if b then ["-cb"] else []) ++
             ((if c.mlock then ["--mlock"] else []) ++
             ((if c.embedding then ["--embedding"] else []) ++
             ((if c.jinja then ["--jinja"] else []) ++
             ((if c.verbose then ["-v"] else []) ++
             ((if c.ignore_eos then ["--ignore-eos"] else []) ++
             [])))))))) ++
            numa_tokens c ++ custom_arg_tokens c)) := fun b => rfl
    refine ⟨base_args c ++ opt_value_tokens c ++ reasoning_tokens c ++ flash_attn_tokens c ++
            ((if c.no_mmap then ["--no-mmap"] else []) ++ (if c.no_webui then ["--no-webui"] else [])),
            ((if c.mlock then ["--mlock"] else []) ++ (if c.embedding then ["--embedding"] else []) ++ (if c.jinja then ["--jinja"] else []) ++ (if c.verbose then ["-v"] else []) ++ (if c.ignore_eos then ["--ignore-eos"] else [])) ++
            numa_tokens c ++ custom_arg_tokens c,
            ?_, ?_, by simp <;> omega⟩
    · rw [hgen false, if_neg h]
      simp [List.append_assoc, BoolFlagField.flag]
    · rw [hgen true, if_neg h]
      simp [List.append_assoc, BoolFlagField.flag]
  case mlock =>
    have hgen : ∀ b, generate_command (BoolFlagField.setVal BoolFlagField.mlock b c) =
        (if pyStrip c.model_path = "" then none else
          some (base_args c ++ opt_value_tokens c ++ reasoning_tokens c ++ flash_attn_tokens c ++
            ((if c.no_mmap then ["--no-mmap"] else []) ++
             ((if c.no_webui then ["--no-webui"] else []) ++
             ((if c.cont_batching then ["-cb"] else []) ++
             ((if b then ["--mlock"] else []) ++
             ((if c.embedding then ["--embedding"] else []) ++
             ((if c.jinja then ["--jinja"] else []) ++
             ((if c.verbose then ["-v"] else []) ++
             ((if c.ignore_eos then ["--ignore-eos"] else []) ++
             [])))))))) ++
            numa_tokens c ++ custom_arg_tokens c)) := fun b => rfl
    refine ⟨base_args c ++ opt_value_tokens c ++ reasoning_tokens c ++ flash_attn_tokens c ++
            ((if c.no_mmap then ["--no-mmap"] else []) ++ (if c.no_webui then ["--no-webui"] else []) ++ (if c.cont_batching then ["-cb"] else [])),
            ((if c.embedding then ["--embedding"] else []) ++ (if c.jinja then ["--jinja"] else []) ++ (if c.verbose then ["-v"] else []) ++ (if c.ignore_eos then ["--ignore-eos"] else [])) ++
            numa_tokens c ++ custom_arg_tokens c,
            ?_, ?_, by simp <;> omega⟩
    · rw [hgen false, if_neg h]
      simp [List.append_assoc, BoolFlagField.flag]
    · rw [hgen true, if_neg h]
      simp [List.append_assoc, BoolFlagField.flag]
  case embedding =>
    have hgen : ∀ b, generate_command (BoolFlagField.setVal BoolFlagField.embedding b c) =
        (if pyStrip c.model_path = "" then none else
          some (base_args c ++ opt_value_tokens c ++ reasoning_tokens c ++ flash_attn_tokens c ++
            ((if c.no_mmap then ["--no-mmap"] else []) ++
             ((if c.no_webui then ["--no-webui"] else []) ++
             ((if c.cont_batching then ["-cb"] else []) ++
             ((if c.mlock then ["--mlock"] else []) ++
             ((if b then ["--embedding"] else []) ++
             ((if c.jinja then ["--jinja"] else []) ++
             ((if c.verbose then ["-v"] else []) ++
             ((if c.ignore_eos then ["--ignore-eos"] else []) ++
             [])))))))) ++
            numa_tokens c ++ custom_arg_tokens c)) := fun b => rfl
    refine ⟨base_args c ++ opt_value_tokens c ++ reasoning_tokens c ++ flash_attn_tokens c ++
            ((if c.no_mmap then ["--no-mmap"] else []) ++ (if c.no_webui then ["--no-webui"] else []) ++ (if c.cont_batching then ["-cb"] else []) ++ (if c.mlock then ["--mlock"] else [])),
            ((if c.jinja then ["--jinja"] else []) ++ (if c.verbose then ["-v"] else []) ++ (if c.ignore_eos then ["--ignore-eos"] else [])) ++
            numa_tokens c ++ custom_arg_tokens c,
            ?_, ?_, by simp <;> omega⟩
    · rw [hgen false, if_neg h]
      simp [List.append_assoc, BoolFlagField.flag]
    · rw [hgen true, if_neg h]
      simp [List.append_assoc, BoolFlagField.flag]
  case jinja =>
    have hgen : ∀ b, generate_command (BoolFlagField.setVal BoolFlagField.jinja b c) =
        (if pyStrip c.model_path = "" then none else
          some (base_args c ++ opt_value_tokens c ++ reasoning_tokens c ++ flash_attn_tokens c ++
            ((if c.no_mmap then ["--no-mmap"] else []) ++
             ((if c.no_webui then ["--no-webui"] else []) ++
             ((if c.cont_batching then ["-cb"] else []) ++
             ((if c.mlock then ["--mlock"] else []) ++
             ((if c.embedding then ["--embedding"] else []) ++
             ((if b then ["--jinja"] else []) ++
             ((if c.verbose then ["-v"] else []) ++
             ((if c.ignore_eos then ["--ignore-eos"] else []) ++
             [])))))))) ++
            numa_tokens c ++ custom_arg_tokens c)) := fun b => rfl
    refine ⟨base_args c ++ opt_value_tokens c ++ reasoning_tokens c ++ flash_attn_tokens c ++
            ((if c.no_mmap then ["--no-mmap"] else []) ++ (if c.no_webui then ["--no-webui"] else []) ++ (if c.cont_batching then ["-cb"] else []) ++ (if c.mlock then ["--mlock"] else []) ++ (if c.embedding then ["--embedding"] else [])),
            ((if c.verbose then ["-v"] else []) ++ (if c.ignore_eos then ["--ignore-eos"] else [])) ++
            numa_tokens c ++ custom_arg_tokens c,
            ?_, ?_, by simp <;> omega⟩
    · rw [hgen false, if_neg h]
      simp [List.append_assoc, BoolFlagField.flag]
    · rw [hgen true, if_neg h]
      simp [List.append_assoc, BoolFlagField.flag]
  case verbose =>
    have hgen : ∀ b, generate_command (BoolFlagField.setVal BoolFlagField.verbose b c) =
        (if pyStrip c.model_path = "" then none else
          some (base_args c ++ opt_value_tokens c ++ reasoning_tokens c ++ flash_attn_tokens c ++
            ((if c.no_mmap then ["--no-mmap"] else []) ++
             ((if c.no_webui then ["--no-webui"] else []) ++
             ((if c.cont_batching then ["-cb"] else []) ++
             ((if c.mlock then ["--mlock"] else []) ++
             ((if c.embedding then ["--embedding"] else []) ++
             ((if c.jinja then ["--jinja"] else []) ++
             ((if b then ["-v"] else []) ++
             ((if c.ignore_eos then ["--ignore-eos"] else []) ++
             [])))))))) ++
            numa_tokens c ++ custom_arg_tokens c)) := fun b => rfl
    refine ⟨base_args c ++ opt_value_tokens c ++ reasoning_tokens c ++ flash_attn_tokens c ++
            ((if c.no_mmap then ["--no-mmap"] else []) ++ (if c.no_webui then ["--no-webui"] else []) ++ (if c.cont_batching then ["-cb"] else []) ++ (if c.mlock then ["--mlock"] else []) ++ (if c.embedding then ["--embedding"] else []) ++ (if c.jinja then ["--jinja"] else [])),
            ((if c.ignore_eos then ["--ignore-eos"] else [])) ++
            numa_tokens c ++ custom_arg_tokens c,
            ?_, ?_, by simp <;> omega⟩
    · rw [hgen false, if_neg h]
      simp [List.append_assoc, BoolFlagField.flag]
    · rw [hgen true, if_neg h]
      simp [List.append_assoc, BoolFlagField.flag]
  case ignore_eos =>
    have hgen : ∀ b, generate_command (BoolFlagField.setVal BoolFlagField.ignore_eos b c) =
        (if pyStrip c.model_path = "" then none else
          some (base_args c ++ opt_value_tokens c ++ reasoning_tokens c ++ flash_attn_tokens c ++
            ((if c.no_mmap then ["--no-mmap"] else []) ++
             ((if c.no_webui then ["--no-webui"] else []) ++
             ((if c.cont_batching then ["-cb"] else []) ++
             ((if c.mlock then ["--mlock"] else []) ++
             ((if c.embedding then ["--embedding"] else []) ++
             ((if c.jinja then ["--jinja"] else []) ++
             ((if c.verbose then ["-v"] else []) ++
             ((if b then ["--ignore-eos"] else []) ++
             [])))))))) ++
            numa_tokens c ++ custom_arg_tokens c)) := fun b => rfl
    refine ⟨base_args c ++ opt_value_tokens c ++ reasoning_tokens c ++ flash_attn_tokens c ++
            ((if c.no_mmap then ["--no-mmap"] else []) ++ (if c.no_webui then ["--no-webui"] else []) ++ (if c.cont_batching then ["-cb"] else []) ++ (if c.mlock then ["--mlock"] else []) ++ (if c.embedding then ["--embedding"] else []) ++ (if c.jinja then ["--jinja"] else []) ++ (if c.verbose then ["-v"] else [])),
            numa_tokens c ++ custom_arg_tokens c,
            ?_, ?_, by simp <;> omega⟩
    · rw [hgen false, if_neg h]
      simp [List.append_assoc, BoolFlagField.flag]
    · rw [hgen true, if_neg h]
      simp [List.append_assoc, BoolFlagField.flag]

theorem c8_witness :
    ∃ A B,
      generate_command
        (BoolFlagField.setVal BoolFlagField.mlock false
          { initial_config with model_path := "m" }) = some (A ++ B) ∧
      generate_command
        (BoolFlagField.setVal BoolFlagField.mlock true
          { initial_config with model_path := "m" }) =
        some (A ++ BoolFlagField.flag BoolFlagField.mlock :: B) ∧
      (A ++ BoolFlagField.flag BoolFlagField.mlock :: B).length = (A ++ B).length + 1 :=
  c8_one_flag_insertion { initial_config with model_path := "m" }
    BoolFlagField.mlock (by decide)

end LlamaGui
